import Mathlib

/-!
Shallow embedding of the ai-hackathon repository for specification checking.

The repository ships a React dashboard ("guardians-website") whose services
load task-definition documents, normalize pull-request payloads and
violation entries, and export task lists as JSON.  The pure logic of those
services (src/guardians-website/src/services/apiService.ts,
src/guardians-website/src/services/taskGenerator.ts wording preserved from
src/unnamed/part_006, src/guardians-website/src/App.tsx) is embedded below
as Lean functions; JavaScript `undefined`/`null` is modelled with `Option`,
the nullish-coalescing operator `??` with `Option.orElse`/`Option.getD`,
and asynchronous external effects (HTTP fetch, OpenAI call) with explicit
outcome parameters, so every function is total and executable.

The compliance engine `validate_code.py` described by the design document
is referenced by the repository README but its source is not part of the
repository snapshot; the aggregate-count identity it must satisfy is
modelled from the specification text in the `EngineModel` section.
-/

namespace Guardians

/-- JavaScript runtime value, restricted to the shapes the embedded code
inspects (`typeof x === 'number'` checks on the `line` field). -/
inductive JsVal where
  | num (n : Int)
  | str (s : String)
  | boolean (b : Bool)
  | nullv
deriving DecidableEq, Repr

/-- The `Task` interface from src/guardians-website/src/types.ts.  The
string-union types (`TaskCategory`, `TaskSeverity`) are modelled as plain
strings; their admissible values are irrelevant to the claims checked
here. -/
structure Task where
  id : String
  title : String
  description : String
  category : String
  severity : String
  checkType : String
  fileTypes : List String
  exampleViolation : String
  suggestedFix : String
  docReference : String
deriving DecidableEq, Repr

/-- The `Violation` interface from types.ts.  Every field carries the
JavaScript value stored in the object: `Option` tracks whether the field
is defined (`none` = `undefined`), which is exactly what the claims about
field definedness quantify over.  `line` is a raw JavaScript value because
`normalizeViolations` guards it with a `typeof === 'number'` test. -/
structure Violation where
  severity : Option String
  rule : Option String
  message : Option String
  file : Option String
  line : Option JsVal
  suggestedFix : Option String
deriving DecidableEq, Repr

/-- The `author` object of a `PullRequest` (types.ts). -/
structure Author where
  name : String
  avatar : String
deriving DecidableEq, Repr

/-- The `PullRequest` interface from types.ts, extended with the `summary`
field written by `applyDemoViolations` in App.tsx.  `status` is a plain
string: `normalizeStatus` can produce the value "pending", which lies
outside the declared three-member union, and claim C8 is about exactly
that. -/
structure PullRequest where
  id : String
  number : Int
  title : String
  repository : String
  author : Author
  status : String
  filesChanged : Int
  violations : Int
  linesAdded : Int
  linesRemoved : Int
  violationDetails : List Violation
  summary : Option String
deriving DecidableEq, Repr

/-- The declared values of the `PullRequest['status']` union
(src/guardians-website/src/types.ts: `'ready' | 'violations' |
'critical'`). -/
def pullRequestStatusValues : List String := ["ready", "violations", "critical"]

/-! ### Mock data (src/guardians-website/src/services/mockData.ts) -/

/-- `MOCK_TASKS` from mockData.ts, transcribed verbatim. -/
def MOCK_TASKS : List Task := [
  { id := "task_001"
    title := "Enforce structured error handling"
    description := "All critical code paths must capture exceptions and log contextual metadata before rethrowing."
    category := "Code Quality"
    severity := "critical"
    checkType := "Error Handling"
    fileTypes := ["*.ts", "*.tsx", "*.js"]
    exampleViolation := "Catching errors without logging or rethrowing."
    suggestedFix := "Wrap handlers with logger.error including request/user ids."
    docReference := "error-handbook.md#structured-handling" },
  { id := "task_002"
    title := "Disallow plaintext secrets"
    description := "Ensure no API keys, tokens, or secrets are committed in configuration files."
    category := "Security"
    severity := "critical"
    checkType := "Secrets Scan"
    fileTypes := ["*.env", "*.yml", "*.json"]
    exampleViolation := "AWS_SECRET=abcd1234 in .env file."
    suggestedFix := "Move secrets to Vault and reference via env placeholders."
    docReference := "security-controls.pdf#page=4" },
  { id := "task_003"
    title := "Optimize bundle size for UI builds"
    description := "Client bundles must stay under 250kb gzip and leverage dynamic imports."
    category := "Performance"
    severity := "warning"
    checkType := "Bundle Budget"
    fileTypes := ["*.tsx", "*.ts"]
    exampleViolation := "Importing entire lodash library synchronously."
    suggestedFix := "Use lodash-es per-function imports with dynamic loading."
    docReference := "frontend-guidelines.md#performance" },
  { id := "task_004"
    title := "Validate API response schemas"
    description := "All outbound responses must conform to OpenAPI schema definitions."
    category := "Documentation"
    severity := "info"
    checkType := "Schema Validation"
    fileTypes := ["*.ts", "*.py"]
    exampleViolation := "Missing optional field default in user profile response."
    suggestedFix := "Use zod schema to validate before returning payload."
    docReference := "api-standards.md#responses" },
  { id := "task_005"
    title := "Mandate secure headers"
    description := "Every service must inject CSP, HSTS, and frameguard headers."
    category := "Security"
    severity := "warning"
    checkType := "Header Enforcement"
    fileTypes := ["*.ts", "*.js"]
    exampleViolation := "Express server missing helmet configuration."
    suggestedFix := "Add helmet middleware with enterprise CSP template."
    docReference := "security-controls.pdf#page=12" }
]

/-- `MOCK_PRS` from mockData.ts, transcribed verbatim.  Violation fields
present in the literal are `some`; omitted fields (`suggestedFix` on some
entries) are `none`; `summary` is absent from the literals. -/
def MOCK_PRS : List PullRequest := [
  { id := "pr-001"
    number := 128
    title := "Refactor logging pipeline"
    repository := "acme/observability-service"
    author := { name := "Ava Martinez", avatar := "https://i.pravatar.cc/150?img=1" }
    status := "violations"
    filesChanged := 12
    violations := 3
    linesAdded := 542
    linesRemoved := 132
    violationDetails := [
      { severity := some "critical"
        rule := some "No PII in Logs"
        message := some "User email is logged in plaintext."
        file := some "src/log/serializer.ts"
        line := some (JsVal.num 88)
        suggestedFix := some "Mask user identifiers before logging or remove field entirely." },
      { severity := some "warning"
        rule := some "Structured Logging"
        message := some "Log context missing requestId property."
        file := some "src/log/logger.ts"
        line := some (JsVal.num 54)
        suggestedFix := none }
    ]
    summary := none },
  { id := "pr-002"
    number := 87
    title := "Add authentication middleware"
    repository := "acme/web-platform"
    author := { name := "Liam Chen", avatar := "https://i.pravatar.cc/150?img=2" }
    status := "ready"
    filesChanged := 3
    violations := 0
    linesAdded := 245
    linesRemoved := 12
    violationDetails := []
    summary := none },
  { id := "pr-003"
    number := 206
    title := "Payment service retries"
    repository := "acme/payments"
    author := { name := "Priya Kapoor", avatar := "https://i.pravatar.cc/150?img=3" }
    status := "critical"
    filesChanged := 18
    violations := 6
    linesAdded := 812
    linesRemoved := 96
    violationDetails := [
      { severity := some "critical"
        rule := some "Idempotent Writes"
        message := some "Retry handler lacks transaction idempotency check."
        file := some "src/retry/workflow.ts"
        line := some (JsVal.num 132)
        suggestedFix := some "Persist retry tokens and short-circuit duplicates." },
      { severity := some "warning"
        rule := some "Telemetry Coverage"
        message := some "New retry path missing metrics emission."
        file := some "src/retry/metrics.ts"
        line := some (JsVal.num 45)
        suggestedFix := none }
    ]
    summary := none }
]

/-! ### apiService.ts: status, author and violation normalization -/

/-- `normalizeStatus` (apiService.ts lines 129-137).  The argument is the
optional raw `status` string of a backend item; `none` models
`undefined`. -/
def normalizeStatus (status : Option String) : String :=
  match status with
  | some s =>
    if s = "ready" ∨ s = "violations" ∨ s = "critical" then s
    else if s = "warnings" then "violations"
    else "pending"
  | none => "pending"

/-- One raw violation entry of a backend payload, as inspected by
`normalizeViolations` (apiService.ts lines 139-151).  Each field is the
JavaScript property of that name; `none` models an absent property. -/
structure RawEntry where
  severity : Option String
  task_id : Option String
  rule : Option String
  name : Option String
  message : Option String
  file : Option String
  line : Option JsVal
  suggested_fix : Option String
  suggestedFix : Option String
  fix : Option String
deriving DecidableEq, Repr

/-- The object literal built for one entry inside `normalizeViolations`:
each `??` chain becomes an `Option.orElse` chain ending in the literal
default, and the `typeof entry.line === 'number' ? entry.line : 1`
conditional keeps a numeric line and replaces anything else with 1. -/
def normalizeEntry (entry : RawEntry) : Violation :=
  { severity := entry.severity.orElse fun _ => some "warning"
    rule := ((entry.task_id.orElse fun _ => entry.rule).orElse fun _ =>
      entry.name).orElse fun _ => some "Policy check"
    message := entry.message.orElse fun _ => some "Task violation detected."
    file := entry.file.orElse fun _ => some "unknown"
    line := some (match entry.line with
      | some (JsVal.num n) => JsVal.num n
      | _ => JsVal.num 1)
    suggestedFix := (entry.suggested_fix.orElse fun _ =>
      entry.suggestedFix).orElse fun _ => entry.fix }

/-- `normalizeViolations` (apiService.ts lines 139-151).  The outer
`Option` is the `Array.isArray` guard (`none` = the argument was
`undefined` or not an array); the inner `Option` on each element is the
`.filter(Boolean)` guard dropping `null`/`undefined` entries. -/
def normalizeViolations (entries : Option (List (Option RawEntry))) : List Violation :=
  match entries with
  | none => []
  | some es => (es.filterMap id).map normalizeEntry

/-! ### apiService.ts: pull-request normalization and fetching -/

/-- Hexadecimal digit (uppercase) used for percent-encoding. -/
def hexUpper (n : Nat) : Char :=
  if n < 10 then Char.ofNat (48 + n) else Char.ofNat (55 + n)

/-- Characters left unescaped by the ECMAScript `encodeURIComponent`
builtin: ASCII letters, digits, and `- _ . ! ~ * ' ( )` (codes listed
numerically). -/
def isURIUnescaped (c : Char) : Bool :=
  (65 ≤ c.toNat && c.toNat ≤ 90) || (97 ≤ c.toNat && c.toNat ≤ 122) ||
  (48 ≤ c.toNat && c.toNat ≤ 57) ||
  [45, 95, 46, 33, 126, 42, 39, 40, 41].contains c.toNat

/-- Percent-encoding of one UTF-8 byte, `%XY` with uppercase hex. -/
def percentEncodeByte (b : UInt8) : List Char :=
  [Char.ofNat 37, hexUpper (b.toNat / 16), hexUpper (b.toNat % 16)]

/-- The ECMAScript `encodeURIComponent` builtin used by
`normalizeAuthor`: unescaped characters pass through, every other
character is percent-encoded byte by byte. -/
def encodeURIComponent (s : String) : String :=
  String.mk (s.data.flatMap fun c =>
    if isURIUnescaped c then [c]
    else (String.mk [c]).toUTF8.toList.flatMap percentEncodeByte)

/-- The raw `author` property inspected by `normalizeAuthor`
(apiService.ts lines 117-127): an object carrying both `name` and
`avatar` keys, an object missing one of them, a string, or a
`null`/`undefined` value. -/
inductive RawAuthor where
  | objFull (name avatar : String)
  | objPartial
  | strv (s : String)
  | absent
deriving DecidableEq, Repr

/-- `normalizeAuthor` (apiService.ts lines 117-127). -/
def normalizeAuthor (author : RawAuthor) : Author :=
  match author with
  | RawAuthor.objFull n av => { name := n, avatar := av }
  | a =>
    let nm := match a with
      | RawAuthor.strv s => if s.length ≠ 0 then s else "Guardians Agent"
      | _ => "Guardians Agent"
    { name := nm
      avatar := "https://api.dicebear.com/7.x/initials/svg?seed=" ++ encodeURIComponent nm }

/-- One raw backend pull-request item as inspected by
`normalizePullRequest` (apiService.ts lines 99-115); every property the
function reads, `none` modelling an absent property. -/
structure RawPR where
  id : Option String
  number : Option Int
  title : Option String
  repository : Option String
  author : RawAuthor
  status : Option String
  files_changed : Option Int
  filesChanged : Option Int
  violations : Option Int
  lines_added : Option Int
  linesAdded : Option Int
  lines_removed : Option Int
  linesRemoved : Option Int
  result : Option (List (Option RawEntry))
  violationDetails : Option (List (Option RawEntry))
deriving Repr

/-- `normalizePullRequest` (apiService.ts lines 99-115).  `Number(x ?? 0)`
on the already-numeric model is `Option.getD 0`; the template literal for
the fallback id concatenates the repository, "#PR-" and the number. -/
def normalizePullRequest (item : RawPR) : PullRequest :=
  let violationDetails := normalizeViolations (item.result.orElse fun _ => item.violationDetails)
  let repo := item.repository.getD "unknown/unknown"
  { id := item.id.getD (repo ++ "#PR-" ++ toString (item.number.getD 0))
    number := item.number.getD 0
    title := item.title.getD "Untitled pull request"
    repository := repo
    author := normalizeAuthor item.author
    status := normalizeStatus item.status
    filesChanged := (item.files_changed.orElse fun _ => item.filesChanged).getD 0
    violations := item.violations.getD (Int.ofNat violationDetails.length)
    linesAdded := (item.lines_added.orElse fun _ => item.linesAdded).getD 0
    linesRemoved := (item.lines_removed.orElse fun _ => item.linesRemoved).getD 0
    violationDetails := violationDetails
    summary := none }

/-- The parsed body of a successful `/pull-requests` response:
`data.items` may be absent (`data.items ?? []`). -/
structure PRListBody where
  items : Option (List RawPR)

/-- Outcome of the `fetch` call inside `fetchPullRequests`: either the
promise rejects (network failure, unparsable body — anything the `catch`
clause would see thrown from `fetch`/`json`), or a response arrives with
its `ok` flag and parsed body. -/
inductive FetchOutcome where
  | failure
  | response (ok : Bool) (body : PRListBody)

/-- `fetchPullRequests` (apiService.ts lines 8-27).  `hasApi` is
`Boolean(API_BASE_URL)`; the external fetch is the `outcome` parameter.
The function is total — every branch resolves with a list, which is the
embedded form of "the promise never rejects": the `catch` clause turns
every thrown error into the mock list. -/
def fetchPullRequests (hasApi : Bool) (outcome : FetchOutcome) : List PullRequest :=
  if !hasApi then MOCK_PRS
  else
    match outcome with
    | FetchOutcome.failure => MOCK_PRS
    | FetchOutcome.response ok body =>
      if ok then (body.items.getD []).map normalizePullRequest
      else MOCK_PRS

/-! ### taskGenerator.ts: document-driven task generation -/

/-- Classification of the string payload handed to `safeParseTasks`
(taskGenerator.ts lines 244-263) by what `JSON.parse` does with it:
`missing` is a falsy payload (`undefined` or the empty string, the
`if (!payload)` guard), `unparsable` makes `JSON.parse` throw,
`nonArray` parses to a non-array value, and `arrayOf ts` parses to an
array whose elements the code casts to `Task[]` unchecked. -/
inductive ParsedPayload where
  | missing
  | unparsable
  | nonArray
  | arrayOf (tasks : List Task)
deriving DecidableEq, Repr

/-- `safeParseTasks` (taskGenerator.ts lines 244-263): every non-array
outcome falls back to `MOCK_TASKS`; an array is returned as-is via an
unchecked cast — no field of any entry is validated. -/
def safeParseTasks (payload : ParsedPayload) : List Task :=
  match payload with
  | ParsedPayload.missing => MOCK_TASKS
  | ParsedPayload.unparsable => MOCK_TASKS
  | ParsedPayload.nonArray => MOCK_TASKS
  | ParsedPayload.arrayOf data => data

/-- One uploaded document as read by `readFileAsText`. -/
structure UploadFile where
  name : String
  content : String
deriving DecidableEq, Repr

/-- Outcome of the OpenAI chat-completions call inside
`generateTasksFromDocuments`: the request throws (caught by the
`catch` clause), or a response arrives whose
`choices[0].message.content` — classified by `ParsedPayload`, with
`missing` covering an absent or empty content string. -/
inductive OpenAIOutcome where
  | apiFailure
  | apiResponse (payload : ParsedPayload)
deriving Repr

/-- Result of a `generateTasksFromDocuments` run: the resolved task list
plus whether the external OpenAI endpoint was contacted at all. -/
structure GenResult where
  tasks : List Task
  contactedApi : Bool
deriving DecidableEq, Repr

/-- `generateTasksFromDocuments` (taskGenerator.ts lines 265-316).
`hasKey` is `Boolean(OPENAI_API_KEY)`; the network call is the `api`
parameter.  The empty-file-list guard and the missing-key guard both
return the mock tasks before any request is issued; prompt assembly is
omitted because the result depends on the documents only through the
opaque API response. -/
def generateTasksFromDocuments (files : List UploadFile) (hasKey : Bool)
    (api : OpenAIOutcome) : GenResult :=
  if files.length = 0 then { tasks := MOCK_TASKS, contactedApi := false }
  else if !hasKey then { tasks := MOCK_TASKS, contactedApi := false }
  else
    match api with
    | OpenAIOutcome.apiFailure => { tasks := MOCK_TASKS, contactedApi := true }
    | OpenAIOutcome.apiResponse payload =>
      { tasks := safeParseTasks payload, contactedApi := true }

/-! ### apiService.ts: exportTasksAsJson

`exportTasksAsJson` wraps `JSON.stringify(tasks, null, 2)` in a `Blob`
and returns `URL.createObjectURL(blob)`.  The object URL is a fresh
handle per call; the serialized JSON text placed in the blob is what the
determinism claim is about, and it is embedded here as an executable
serializer following `JSON.stringify` with a 2-space indent: object keys
in the insertion order of the `Task` literal, strings escaped as
ECMAScript does. -/

/-- Hexadecimal digit (lowercase) as emitted by `JSON.stringify` in
`\uXXXX` escapes. -/
def hexLower (n : Nat) : Char :=
  if n < 10 then Char.ofNat (48 + n) else Char.ofNat (87 + n)

/-- `JSON.stringify` escaping of one character: quote and backslash get a
backslash, the named control escapes are used where they exist, other
control characters become `\u00XX`, everything else passes through. -/
def jsonEscapeChar (c : Char) : String :=
  if c.toNat = 34 then "\\\""
  else if c.toNat = 92 then "\\\\"
  else if c.toNat = 8 then "\\b"
  else if c.toNat = 9 then "\\t"
  else if c.toNat = 10 then "\\n"
  else if c.toNat = 12 then "\\f"
  else if c.toNat = 13 then "\\r"
  else if c.toNat < 32 then
    "\\u00" ++ String.mk [hexLower (c.toNat / 16), hexLower (c.toNat % 16)]
  else String.mk [c]

/-- A JSON string literal with `JSON.stringify` escaping. -/
def jsonString (s : String) : String :=
  "\"" ++ String.join (s.data.map jsonEscapeChar) ++ "\""

/-- `JSON.stringify` rendering of the `fileTypes` string array nested two
levels deep (indent 2): items on their own lines at six spaces, closing
bracket at four. -/
def fileTypesJson (fts : List String) : String :=
  if fts = [] then "[]"
  else "[\n" ++ String.intercalate ",\n" (fts.map fun s => "      " ++ jsonString s) ++
    "\n    ]"

/-- `JSON.stringify` rendering of one `Task` object at nesting depth one,
keys in the insertion order of the `Task` interface literals. -/
def taskJson (t : Task) : String :=
  "  \x7b\n" ++ String.intercalate ",\n" [
    "    \"id\": " ++ jsonString t.id,
    "    \"title\": " ++ jsonString t.title,
    "    \"description\": " ++ jsonString t.description,
    "    \"category\": " ++ jsonString t.category,
    "    \"severity\": " ++ jsonString t.severity,
    "    \"checkType\": " ++ jsonString t.checkType,
    "    \"fileTypes\": " ++ fileTypesJson t.fileTypes,
    "    \"exampleViolation\": " ++ jsonString t.exampleViolation,
    "    \"suggestedFix\": " ++ jsonString t.suggestedFix,
    "    \"docReference\": " ++ jsonString t.docReference
  ] ++ "\n  \x7d"

/-- The JSON text `JSON.stringify(tasks, null, 2)` placed in the blob by
`exportTasksAsJson` (apiService.ts lines 36-41). -/
def exportTasksJson (tasks : List Task) : String :=
  if tasks = [] then "[]"
  else "[\n" ++ String.intercalate ",\n" (tasks.map taskJson) ++ "\n]"

/-! ### App.tsx: demo violations -/

/-- `List.map` with the element index, as JavaScript
`array.map((x, i) => ...)` provides it; the accumulator argument is the
index of the head. -/
def mapIdxFrom (f : Nat → α → β) : Nat → List α → List β
  | _, [] => []
  | i, a :: rest => f i a :: mapIdxFrom f (i + 1) rest

/-- `DEMO_FILES` (App.tsx line 38). -/
def DEMO_FILES : List String :=
  ["src/api/userService.ts", "src/payments/processor.ts", "src/auth/jwt.ts",
   "src/utils/logger.ts"]

/-- One fabricated violation detail of `applyDemoViolations` (App.tsx
lines 58-65): `rule` is the task *title*; the `?? fallback` on
`task.suggestedFix` cannot fire because the `Task` interface requires the
field, so the value is the task's own fix. -/
def demoDetail (index offset : Nat) (task : Task) : Violation :=
  let f := DEMO_FILES.getD ((index + offset) % DEMO_FILES.length) ""
  { severity := some task.severity
    rule := some task.title
    message := some ("Policy \"" ++ task.title ++ "\" detected an issue in " ++ f ++ ".")
    file := some f
    line := some (JsVal.num (Int.ofNat ((offset + 1) * 12)))
    suggestedFix := some task.suggestedFix }

/-- The body of the `prs.map((pr, index) => ...)` callback inside
`applyDemoViolations` (App.tsx lines 48-73), hoisted to a named function
of the surrounding `sourceTasks`.  JavaScript truthiness of `length`
becomes `≠ 0`. -/
def demoTransform (sourceTasks : List Task) (index : Nat) (pr : PullRequest) :
    PullRequest :=
  let existingDetails := pr.violationDetails
  if existingDetails.length ≠ 0 ∨ pr.status = "ready" then
    { pr with
      violationDetails := existingDetails
      summary := pr.summary.orElse fun _ =>
        some (if existingDetails.length ≠ 0 then
            "Detected " ++ toString existingDetails.length ++ " violation(s)."
          else "All policy checks passed.") }
  else
    let sampleTasks := sourceTasks.take (min 2 sourceTasks.length)
    let details := mapIdxFrom (fun offset task => demoDetail index offset task) 0
      sampleTasks
    { pr with
      status := if pr.status = "pending" then "violations" else pr.status
      violations := Int.ofNat details.length
      violationDetails := details
      summary := some ("Detected " ++ toString details.length ++
        " policy violation(s).") }

/-- `applyDemoViolations` (App.tsx lines 40-74).  `enableDemo` is the
`ENABLE_DEMO_VIOLATIONS` flag. -/
def applyDemoViolations (enableDemo : Bool) (prs : List PullRequest)
    (tasks : List Task) : List PullRequest :=
  if !enableDemo then prs
  else
    let sourceTasks := if tasks.length ≠ 0 then tasks else MOCK_TASKS
    if sourceTasks.length = 0 then prs
    else mapIdxFrom (demoTransform sourceTasks) 0 prs

/-! ### Concrete fixtures used to exercise the claims -/

/-- A raw backend violation entry with every property absent. -/
def emptyRawEntry : RawEntry :=
  { severity := none, task_id := none, rule := none, name := none,
    message := none, file := none, line := none, suggested_fix := none,
    suggestedFix := none, fix := none }

/-- A raw entry whose `line` property holds a string, so the
`typeof === 'number'` guard fails. -/
def strLineEntry : RawEntry := { emptyRawEntry with line := some (JsVal.str "not-a-number") }

/-- A raw entry whose `line` property holds the number 88. -/
def numLineEntry : RawEntry := { emptyRawEntry with line := some (JsVal.num 88) }

/-- A task entry whose `checkType` matches no built-in check kind. -/
def frobnicateTask : Task :=
  { id := "task_x", title := "Frobnicate the widgets", description := "d",
    category := "Code Quality", severity := "warning", checkType := "frobnicate",
    fileTypes := [], exampleViolation := "", suggestedFix := "", docReference := "" }

/-- A pull request with no violation details and status "pending", the
shape for which `applyDemoViolations` fabricates demo details. -/
def demoPR : PullRequest :=
  { id := "pr-x", number := 1, title := "t", repository := "acme/repo",
    author := { name := "a", avatar := "" }, status := "pending",
    filesChanged := 0, violations := 0, linesAdded := 0, linesRemoved := 0,
    violationDetails := [], summary := none }

/-- The pull request `applyDemoViolations` produces from `demoPR` against
the mock task set. -/
def demoOutPR : PullRequest :=
  (applyDemoViolations true [demoPR] MOCK_TASKS).headD demoPR

/-- The first fabricated violation detail of `demoOutPR`. -/
def demoOutViolation : Violation :=
  demoOutPR.violationDetails.headD
    { severity := none, rule := none, message := none, file := none,
      line := none, suggestedFix := none }

end Guardians

namespace EngineModel

/-- Modelled from the spec: the canonical `Rule` of the compliance engine
`validate_code.py` (design document §3), whose source is referenced by the
repository README but is not part of the snapshot.  Only the attributes
the aggregate-count claim mentions are carried. -/
structure Rule where
  id : String
  kind : String
  message : String
  severity : String
deriving DecidableEq, Repr

/-- Modelled from the spec: a `Violation` of the engine (§3) — rule id,
target path, line number, message, severity. -/
structure Violation where
  ruleId : String
  path : String
  line : Nat
  message : String
  severity : String
deriving DecidableEq, Repr

/-- Modelled from the spec: the aggregation rule of §4.4 — a rule
"passes" for a run if and only if zero violations reference its rule id
across all targets. -/
def rulePasses (violations : List Violation) (r : Rule) : Bool :=
  violations.all fun v => v.ruleId ≠ r.id

/-- Modelled from the spec: `tasks_total` is the canonical rule count
produced by the normalizer (§4.1/§4.4). -/
def tasks_total (rules : List Rule) : Nat := rules.length

/-- Modelled from the spec: `tasks_passed` counts rules with zero
violations (§4.4). -/
def tasks_passed (rules : List Rule) (violations : List Violation) : Nat :=
  (rules.filter (rulePasses violations)).length

/-- Modelled from the spec: the number of rules with at least one
violation referencing their id across all targets. -/
def failed_rule_count (rules : List Rule) (violations : List Violation) : Nat :=
  (rules.filter fun r => !(rulePasses violations r)).length

end EngineModel

/-! ## Helper lemmas -/

namespace Guardians

/-- A `??` chain that ends in a literal default always yields a defined
value. -/
theorem orElse_some_isSome (o : Option α) (d : α) :
    (o.orElse fun _ => some d).isSome = true := by
  cases o <;> rfl

/-- Every element of an indexed map comes from an element of the input
list. -/
theorem mem_mapIdxFrom {f : Nat → α → β} {b : β} :
    ∀ {i : Nat} {l : List α}, b ∈ mapIdxFrom f i l → ∃ j a, a ∈ l ∧ b = f j a := by
  intro i l
  induction l generalizing i with
  | nil => intro h; simp [mapIdxFrom] at h
  | cons x xs ih =>
    intro h
    simp only [mapIdxFrom] at h
    rcases List.mem_cons.mp h with h1 | h2
    · exact ⟨i, x, List.mem_cons_self x xs, h1⟩
    · obtain ⟨j, a, ha, hb⟩ := ih h2
      exact ⟨j, a, List.mem_cons_of_mem x ha, hb⟩

/-- Every violation detail on a pull request produced by `demoTransform`
either was already on the input pull request or is a fabricated detail
whose `rule` field is the title of one of the source tasks. -/
theorem demoTransform_details (sourceTasks : List Task) (index : Nat)
    (pr : PullRequest) (v : Violation)
    (hv : v ∈ (demoTransform sourceTasks index pr).violationDetails) :
    v ∈ pr.violationDetails ∨ ∃ t, t ∈ sourceTasks ∧ v.rule = some t.title := by
  unfold demoTransform at hv
  by_cases h : pr.violationDetails.length ≠ 0 ∨ pr.status = "ready"
  · rw [if_pos h] at hv
    exact Or.inl hv
  · rw [if_neg h] at hv
    rcases mem_mapIdxFrom hv with ⟨j, t, ht, rfl⟩
    exact Or.inr ⟨t, List.take_subset _ _ ht, rfl⟩

end Guardians

namespace EngineModel

/-- A list splits into the part satisfying a Boolean predicate and the
part falsifying it. -/
theorem length_filter_add_length_filter_not (p : α → Bool) (l : List α) :
    (l.filter p).length + (l.filter fun a => !(p a)).length = l.length := by
  induction l with
  | nil => rfl
  | cons x xs ih =>
    cases h : p x <;> simp [List.filter_cons, h] <;> omega

end EngineModel

/-! ## Claim theorems -/

namespace EngineModel

/-- C1: for every loaded rule set and every per-target violation lists a
completed run produced, `tasks_passed` plus the number of rules with at
least one violation referencing their id across all targets equals
`tasks_total`, the canonical rule count. -/
theorem tasks_passed_add_failed_eq_total (rules : List Rule)
    (perTargetViolations : List (List Violation)) :
    tasks_passed rules perTargetViolations.flatten +
      failed_rule_count rules perTargetViolations.flatten = tasks_total rules :=
  length_filter_add_length_filter_not _ _

end EngineModel

namespace Guardians

/-- C2 (counterexample): a document that parses to a non-array is not
rejected with an error — `safeParseTasks` silently substitutes the
non-empty mock task list — and a document containing an entry with the
unrecognized kind "frobnicate" is accepted unchanged rather than
rejected. -/
theorem safeParseTasks_substitutes_counterexample :
    safeParseTasks ParsedPayload.nonArray = MOCK_TASKS ∧
    MOCK_TASKS ≠ [] ∧
    safeParseTasks (ParsedPayload.arrayOf [frobnicateTask]) = [frobnicateTask] ∧
    frobnicateTask.checkType = "frobnicate" :=
  ⟨rfl, by decide, rfl, rfl⟩

/-- C2 (amended): `safeParseTasks` never fails: a missing, unparsable or
non-array payload makes it silently substitute the fixed mock task list
`MOCK_TASKS`, and a payload that parses to an array is accepted wholesale
with no validation of any entry's kind. -/
theorem safeParseTasks_fallback_spec :
    safeParseTasks ParsedPayload.missing = MOCK_TASKS ∧
    safeParseTasks ParsedPayload.unparsable = MOCK_TASKS ∧
    safeParseTasks ParsedPayload.nonArray = MOCK_TASKS ∧
    ∀ ts : List Task, safeParseTasks (ParsedPayload.arrayOf ts) = ts :=
  ⟨rfl, rfl, rfl, fun _ => rfl⟩

/-- C3: every violation produced by `normalizeViolations` has its rule,
file, line, severity and message fields defined, whatever properties the
raw entries carried. -/
theorem normalizeViolations_fields_defined (entries : Option (List (Option RawEntry)))
    (v : Violation) (hv : v ∈ normalizeViolations entries) :
    v.severity.isSome ∧ v.rule.isSome ∧ v.message.isSome ∧ v.file.isSome ∧
      v.line.isSome := by
  cases entries with
  | none => simp [normalizeViolations] at hv
  | some es =>
    simp only [normalizeViolations] at hv
    rcases List.mem_map.mp hv with ⟨e, _, rfl⟩
    exact ⟨orElse_some_isSome _ _, orElse_some_isSome _ _, orElse_some_isSome _ _,
      orElse_some_isSome _ _, rfl⟩

/-- C3 (witness): the claim instantiated on a raw entry with every
property absent. -/
theorem normalizeViolations_fields_defined_witness :
    (normalizeEntry emptyRawEntry).severity.isSome ∧
    (normalizeEntry emptyRawEntry).rule.isSome ∧
    (normalizeEntry emptyRawEntry).message.isSome ∧
    (normalizeEntry emptyRawEntry).file.isSome ∧
    (normalizeEntry emptyRawEntry).line.isSome :=
  normalizeViolations_fields_defined (some [some emptyRawEntry])
    (normalizeEntry emptyRawEntry) (by decide)

/-- C4 (counterexample): for a raw entry whose `line` property is not a
number, the normalized violation reports line 1, not the 0/unknown marker
the specification prescribes. -/
theorem normalizeViolations_line_counterexample :
    ((normalizeViolations (some [some strLineEntry])).map fun v => v.line) =
      [some (JsVal.num 1)] ∧ JsVal.num 1 ≠ JsVal.num 0 := by
  decide

/-- C4 (amended): an entry with no numeric line number normalizes to line
1 (the code's unknown marker), and an entry carrying a numeric line keeps
that exact number. -/
theorem normalizeEntry_line_spec (e : RawEntry) :
    ((∀ n : Int, e.line ≠ some (JsVal.num n)) →
      (normalizeEntry e).line = some (JsVal.num 1)) ∧
    (∀ n : Int, e.line = some (JsVal.num n) →
      (normalizeEntry e).line = some (JsVal.num n)) := by
  constructor
  · intro h
    match hl : e.line with
    | none => simp [normalizeEntry, hl]
    | some (JsVal.num n) => exact absurd hl (h n)
    | some (JsVal.str s) => simp [normalizeEntry, hl]
    | some (JsVal.boolean b) => simp [normalizeEntry, hl]
    | some JsVal.nullv => simp [normalizeEntry, hl]
  · intro n hn
    simp [normalizeEntry, hn]

/-- C4 (witness): the amended claim instantiated on a string-valued line
and on the numeric line 88. -/
theorem normalizeEntry_line_spec_witness :
    (normalizeEntry strLineEntry).line = some (JsVal.num 1) ∧
    (normalizeEntry numLineEntry).line = some (JsVal.num 88) :=
  ⟨(normalizeEntry_line_spec strLineEntry).1
      (fun _ h => JsVal.noConfusion (Option.some.inj h)),
   (normalizeEntry_line_spec numLineEntry).2 88 rfl⟩

/-- C5 (counterexample): a run of `applyDemoViolations` over the mock
task set produces a violation whose `rule` field is the task *title*
"Enforce structured error handling", while the loaded rule ids are
task_001 … task_005 — an orphan with respect to the rule-id set. -/
theorem orphan_violation_counterexample :
    ((applyDemoViolations true [demoPR] MOCK_TASKS).map fun pr =>
      pr.violationDetails.map fun v => v.rule) =
      [[some "Enforce structured error handling", some "Disallow plaintext secrets"]] ∧
    (MOCK_TASKS.map fun t => t.id) =
      ["task_001", "task_002", "task_003", "task_004", "task_005"] ∧
    some "Enforce structured error handling" ∉ (MOCK_TASKS.map fun t => some t.id) := by
  decide

/-- C5 (amended): every violation on a pull request produced by
`applyDemoViolations` either already appeared on the input pull request
or carries as its `rule` the *title* (not the id) of a task in the
effective source task set; membership of the rule field in the loaded
rule-id set is not guaranteed. -/
theorem applyDemoViolations_rule_provenance (prs : List PullRequest)
    (tasks : List Task) (pr : PullRequest) (v : Violation)
    (hpr : pr ∈ applyDemoViolations true prs tasks)
    (hv : v ∈ pr.violationDetails) :
    (∃ pr0, pr0 ∈ prs ∧ v ∈ pr0.violationDetails) ∨
    (∃ t, t ∈ (if tasks.length ≠ 0 then tasks else MOCK_TASKS) ∧
      v.rule = some t.title) := by
  have hred : applyDemoViolations true prs tasks =
      (if (if tasks.length ≠ 0 then tasks else MOCK_TASKS).length = 0 then prs
       else mapIdxFrom
         (demoTransform (if tasks.length ≠ 0 then tasks else MOCK_TASKS)) 0 prs) := rfl
  rw [hred] at hpr
  by_cases h0 : (if tasks.length ≠ 0 then tasks else MOCK_TASKS).length = 0
  · rw [if_pos h0] at hpr
    exact Or.inl ⟨pr, hpr, hv⟩
  · rw [if_neg h0] at hpr
    rcases mem_mapIdxFrom hpr with ⟨index, pr0, hpr0, rfl⟩
    rcases demoTransform_details _ index pr0 v hv with hl | ⟨t, ht, hrule⟩
    · exact Or.inl ⟨pr0, hpr0, hl⟩
    · exact Or.inr ⟨t, ht, hrule⟩

/-- C5 (witness): the amended claim instantiated on the demo pull request
and the mock task set. -/
theorem applyDemoViolations_rule_provenance_witness :
    (∃ pr0, pr0 ∈ [demoPR] ∧ demoOutViolation ∈ pr0.violationDetails) ∨
    (∃ t, t ∈ (if MOCK_TASKS.length ≠ 0 then MOCK_TASKS else MOCK_TASKS) ∧
      demoOutViolation.rule = some t.title) :=
  applyDemoViolations_rule_provenance [demoPR] MOCK_TASKS demoOutPR demoOutViolation
    (by decide) (by decide)

/-- C6: the JSON text `exportTasksAsJson` serializes into the exported
blob is a pure function of the task list — identical inputs give
byte-identical JSON. -/
theorem exportTasksJson_deterministic (t1 t2 : List Task) (h : t1 = t2) :
    exportTasksJson t1 = exportTasksJson t2 := by
  rw [h]

/-- C6 (witness): the claim instantiated on the mock task list. -/
theorem exportTasksJson_deterministic_witness :
    exportTasksJson MOCK_TASKS = exportTasksJson MOCK_TASKS :=
  exportTasksJson_deterministic MOCK_TASKS MOCK_TASKS rfl

/-- C7: an accepted (array-shaped) task document is returned by
`safeParseTasks` exactly as given — same rules, same order, nothing
inserted, dropped or deduplicated. -/
theorem safeParseTasks_order_preserving (ts : List Task) :
    safeParseTasks (ParsedPayload.arrayOf ts) = ts := rfl

/-- C8: `normalizeStatus` returns one of exactly four values — the three
declared union members unchanged, "warnings" mapped to "violations", and
everything else (including `undefined`) mapped to "pending", which lies
outside the declared `PullRequest['status']` union. -/
theorem normalizeStatus_spec (status : Option String) :
    (normalizeStatus status = "ready" ∨ normalizeStatus status = "violations" ∨
      normalizeStatus status = "critical" ∨ normalizeStatus status = "pending") ∧
    normalizeStatus (some "ready") = "ready" ∧
    normalizeStatus (some "violations") = "violations" ∧
    normalizeStatus (some "critical") = "critical" ∧
    normalizeStatus (some "warnings") = "violations" ∧
    (status ∉ [some "ready", some "violations", some "critical", some "warnings"] →
      normalizeStatus status = "pending") ∧
    "pending" ∉ pullRequestStatusValues := by
  refine ⟨?_, rfl, rfl, rfl, rfl, ?_, by decide⟩
  · cases status with
    | none => simp [normalizeStatus]
    | some s =>
      by_cases h : s = "ready" ∨ s = "violations" ∨ s = "critical"
      · have hs : normalizeStatus (some s) = s := by
          simp only [normalizeStatus, if_pos h]
        rcases h with h | h | h <;> subst h <;> simp [hs]
      · by_cases h2 : s = "warnings"
        · subst h2
          have hs : normalizeStatus (some "warnings") = "violations" := rfl
          simp [hs]
        · have hs : normalizeStatus (some s) = "pending" := by
            simp only [normalizeStatus, if_neg h, if_neg h2]
          simp [hs]
  · intro hns
    cases status with
    | none => rfl
    | some s =>
      simp only [List.mem_cons, List.not_mem_nil, or_false, not_or,
        Option.some.injEq] at hns
      obtain ⟨h1, h2, h3, h4⟩ := hns
      simp [normalizeStatus, h1, h2, h3, h4]

/-- C8 (witness): the catch-all branch instantiated on the input
"merged". -/
theorem normalizeStatus_spec_witness : normalizeStatus (some "merged") = "pending" :=
  (normalizeStatus_spec (some "merged")).2.2.2.2.2.1 (by decide)

/-- C9: `fetchPullRequests` resolves on every backend outcome (it is a
total function — every thrown error is caught): with no API base URL it
resolves with `MOCK_PRS`, likewise on a rejected fetch and on a non-ok
response, and only on an ok response does it resolve with the normalized
items of the body. -/
theorem fetchPullRequests_resolves :
    (∀ o, fetchPullRequests false o = MOCK_PRS) ∧
    fetchPullRequests true FetchOutcome.failure = MOCK_PRS ∧
    (∀ body, fetchPullRequests true (FetchOutcome.response false body) = MOCK_PRS) ∧
    (∀ body, fetchPullRequests true (FetchOutcome.response true body) =
      (body.items.getD []).map normalizePullRequest) :=
  ⟨fun _ => rfl, rfl, fun _ => rfl, fun _ => rfl⟩

/-- C10: with an empty file list or no OpenAI API key configured,
`generateTasksFromDocuments` returns the fixed mock task list without
contacting the external API, independently of the documents'
contents. -/
theorem generateTasks_mock_fallback (files : List UploadFile) (hasKey : Bool)
    (api : OpenAIOutcome) (h : files = [] ∨ hasKey = false) :
    generateTasksFromDocuments files hasKey api =
      { tasks := MOCK_TASKS, contactedApi := false } := by
  rcases h with rfl | rfl
  · rfl
  · cases files <;> rfl

/-- C10 (witness): the claim instantiated on one uploaded document and no
configured API key. -/
theorem generateTasks_mock_fallback_witness :
    generateTasksFromDocuments [{ name := "standards.md", content := "Use camelCase." }]
      false OpenAIOutcome.apiFailure = { tasks := MOCK_TASKS, contactedApi := false } :=
  generateTasks_mock_fallback _ _ _ (Or.inr rfl)

end Guardians
